import Mathlib

/-!
# Verification of the memristor logic-gate demo

Shallow embedding of the two simulation engines of the memristor crossbar
demo (a React single-page application):

* the instruction-driven logic-state simulator (`createMPUSimulator` in the
  main app file): a sparse grid of binary-state memristor cells stored in a
  JavaScript `Map` keyed by `m-r-c` strings, with operations `MNOT`, `MNOR`,
  the no-op control instructions `ISO`/`COM`/`JSET`/`JRES`, `resetGrid`,
  `setState` and `getState`;
* the gate catalog `GATES` and the `runGate` execution protocol;
* the reference truth-function `computeTruth`;
* the crossbar electrical read model: the recompute effect in the app
  (conductance matrix `G`, per-cell `currents`, per-column `blTotals`, and
  the threshold readout) and the structurally similar `sim` computation in
  the `CrossbarAdvanced` component.

Modelling conventions:

* The `Map` of cells is an association list from `(row, column)` to the
  stored state.  Each JS cell also carries a `history` array, but the source
  only ever appends to it and never reads it back, so it is omitted here.
* JS numbers used as logic values are `Nat`; JS truthiness of a number `n`
  is `n ≠ 0`.
* Electrical quantities (volts, ohms, siemens, amperes) are `ℚ`: the source
  uses IEEE doubles, which we idealise as exact rationals.
* A thrown JS exception (e.g. dereferencing `undefined`) is modelled as
  `Option.none` of the corresponding computation.
-/

set_option maxHeartbeats 1000000

namespace Memristor

/-- The memristor store of `createMPUSimulator`: the JS `Map` of
`m-r-c ↦ {state, history}`, modelled as an association list from the
`(row, column)` coordinate to the cell state (the write-only `history`
array is omitted).  JS `Map.set` appends unseen keys in insertion order,
so lazy creation appends at the tail. -/
abbrev Grid := List ((Nat × Nat) × Nat)

/-- First stored state for a coordinate, if the cell exists
(`memristors.get(id)` after a `memristors.has(id)` check). -/
def findState : Grid → (Nat × Nat) → Option Nat
  | [], _ => none
  | (q, s) :: rest, p => if p = q then some s else findState rest p

/-- `ensure(r, c)`: if the `Map` has no cell for the coordinate, insert one
with state 0 (insertion order puts it at the tail). -/
def ensure (g : Grid) (p : Nat × Nat) : Grid :=
  match findState g p with
  | some _ => g
  | none => g ++ [(p, 0)]

/-- Mutation `m.state = v` of the (existing) cell object stored under a
coordinate: replace the first entry with that key. -/
def writeCell : Grid → (Nat × Nat) → Nat → Grid
  | [], _, _ => []
  | (q, s) :: rest, p, v => if p = q then (q, v) :: rest else (q, s) :: writeCell rest p v

/-- `getState(r, c)`: `ensure(r,c).state` — lazily creates the cell, then
returns its state.  Only the returned value is modelled here; the lazy
insertion performed by a read never changes any observable state
(see `getState_eq_find`). -/
def getState (g : Grid) (r c : Nat) : Nat :=
  (findState (ensure g (r, c)) (r, c)).getD 0

/-- `MNOT(target)`: ensure the target cell, then flip its state
(`m.state = m.state ? 0 : 1`). -/
def MNOT (g : Grid) (target : Nat × Nat) : Grid :=
  let g1 := ensure g target
  let s := (findState g1 target).getD 0
  writeCell g1 target (if s ≠ 0 then 0 else 1)

/-- `MNOR(target, a, b)`: read the states at `a` and `b` (each via
`ensure`), compute `res = (ma || mb) ? 0 : 1`, then write `res` into the
target cell. -/
def MNOR (g : Grid) (target a b : Nat × Nat) : Grid :=
  let g1 := ensure g a
  let ma := (findState g1 a).getD 0
  let g2 := ensure g1 b
  let mb := (findState g2 b).getD 0
  let res := if ma ≠ 0 ∨ mb ≠ 0 then 0 else 1
  let g3 := ensure g2 target
  writeCell g3 target res

/-- `setState(r, c, val)`: ensure the cell, then store
`val ? 1 : 0` (JS truthiness coerces any value to a bit). -/
def setState (g : Grid) (r c : Nat) (val : Nat) : Grid :=
  let g1 := ensure g (r, c)
  writeCell g1 (r, c) (if val ≠ 0 then 1 else 0)

/-- `resetGrid(rows, cols)`: `memristors.clear()` discards the previous
contents (the `_prev` argument), then the nested loops `ensure(r, c)` for
every coordinate in `[0,rows) × [0,cols)`. -/
def resetGrid (_prev : Grid) (rows cols : Nat) : Grid :=
  (List.range rows).foldl
    (fun acc r => (List.range cols).foldl (fun acc2 c => ensure acc2 (r, c)) acc) []

/-! ## Association-list lemmas -/

theorem findState_append (g₁ g₂ : Grid) (p : Nat × Nat) :
    findState (g₁ ++ g₂) p =
      match findState g₁ p with
      | some s => some s
      | none => findState g₂ p := by
  induction g₁ with
  | nil => simp [findState]
  | cons e rest ih =>
    obtain ⟨q, s⟩ := e
    by_cases h : p = q <;> simp [findState, h, ih]

theorem findState_ensure (g : Grid) (p q : Nat × Nat) :
    findState (ensure g p) q =
      if q = p then some ((findState g p).getD 0) else findState g q := by
  unfold ensure
  cases hfp : findState g p with
  | some s =>
    by_cases h : q = p
    · subst h; simp [hfp]
    · simp [h]
  | none =>
    rw [findState_append]
    by_cases h : q = p
    · subst h; simp [hfp, findState]
    · cases hfq : findState g q <;> simp [findState, h, hfq]

theorem findState_writeCell (g : Grid) (p q : Nat × Nat) (v : Nat) :
    findState (writeCell g p v) q =
      if q = p then (findState g p).map (fun _ => v) else findState g q := by
  induction g with
  | nil => by_cases h : q = p <;> simp [writeCell, findState, h]
  | cons e rest ih =>
    obtain ⟨w, s⟩ := e
    by_cases hpw : p = w
    · subst hpw
      by_cases hq : q = p <;> simp [writeCell, findState, hq]
    · by_cases hqw : q = w
      · subst hqw
        have hqp : ¬q = p := fun h => hpw (h ▸ rfl)
        simp [writeCell, findState, hpw, hqp, fun h => hpw (Eq.symm h)]
      · simp [writeCell, findState, hpw, hqw, ih, fun h => hqw h]

theorem getState_eq_find (g : Grid) (r c : Nat) :
    getState g r c = (findState g (r, c)).getD 0 := by
  unfold getState
  rw [findState_ensure]
  simp

/-- A read's lazy insertion never changes any observable state. -/
theorem getD_findState_ensure (g : Grid) (p q : Nat × Nat) :
    (findState (ensure g p) q).getD 0 = (findState g q).getD 0 := by
  rw [findState_ensure]
  by_cases h : q = p
  · subst h; simp
  · simp [h]

theorem getState_ensure (g : Grid) (p : Nat × Nat) (r c : Nat) :
    getState (ensure g p) r c = getState g r c := by
  rw [getState_eq_find, getState_eq_find, getD_findState_ensure]

/-- After `ensure g p` the key `p` is present, so a subsequent in-place
write lands: reading `p` back gives the written value. -/
theorem findState_writeCell_ensure_self (g : Grid) (p : Nat × Nat) (v : Nat) :
    findState (writeCell (ensure g p) p v) p = some v := by
  rw [findState_writeCell, findState_ensure]
  simp

theorem getState_MNOR_target (g : Grid) (t a b : Nat × Nat) :
    getState (MNOR g t a b) t.1 t.2 =
      if getState g a.1 a.2 ≠ 0 ∨ getState g b.1 b.2 ≠ 0 then 0 else 1 := by
  unfold MNOR
  rw [getState_eq_find, findState_writeCell_ensure_self,
    getState_eq_find, getState_eq_find]
  simp [getD_findState_ensure]

theorem getState_MNOR_other (g : Grid) (t a b : Nat × Nat) (r c : Nat)
    (h : (r, c) ≠ t) :
    getState (MNOR g t a b) r c = getState g r c := by
  unfold MNOR
  rw [getState_eq_find, findState_writeCell, if_neg h, findState_ensure, if_neg h,
    getD_findState_ensure, getD_findState_ensure, getState_eq_find]

/-! ## Zero and binary-state invariants of the store -/

/-- Every stored cell state is zero. -/
def AllZero (g : Grid) : Prop := ∀ e ∈ g, e.2 = 0

/-- Every stored cell state is a bit. -/
def BinaryGrid (g : Grid) : Prop := ∀ e ∈ g, e.2 = 0 ∨ e.2 = 1

theorem allZero_ensure {g : Grid} (h : AllZero g) (p : Nat × Nat) :
    AllZero (ensure g p) := by
  unfold ensure
  cases findState g p with
  | some s => exact h
  | none =>
    intro e he
    rcases List.mem_append.mp he with h1 | h2
    · exact h e h1
    · simp only [List.mem_singleton] at h2
      simp [h2]

theorem allZero_foldl_ensure {g : Grid} (h : AllZero g) (l : List Nat)
    (f : Nat → Nat × Nat) :
    AllZero (l.foldl (fun acc x => ensure acc (f x)) g) := by
  induction l generalizing g with
  | nil => exact h
  | cons x xs ih => exact ih (allZero_ensure h (f x))

theorem allZero_resetGrid (g : Grid) (rows cols : Nat) :
    AllZero (resetGrid g rows cols) := by
  unfold resetGrid
  have base : AllZero ([] : Grid) := by intro e he; cases he
  generalize ([] : Grid) = g0 at base ⊢
  induction (List.range rows) generalizing g0 with
  | nil => exact base
  | cons r rs ih =>
    exact ih _ (allZero_foldl_ensure base (List.range cols) (fun c => (r, c)))

theorem findState_mem {g : Grid} {p : Nat × Nat} {s : Nat}
    (h : findState g p = some s) : ∃ e ∈ g, e.2 = s := by
  induction g with
  | nil => simp [findState] at h
  | cons e rest ih =>
    obtain ⟨q, v⟩ := e
    by_cases hpq : p = q
    · simp [findState, hpq] at h
      exact ⟨(q, v), by simp, h⟩
    · simp [findState, hpq] at h
      obtain ⟨e', he', hs⟩ := ih h
      exact ⟨e', by simp [he'], hs⟩

theorem getState_allZero {g : Grid} (h : AllZero g) (r c : Nat) :
    getState g r c = 0 := by
  rw [getState_eq_find]
  cases hf : findState g (r, c) with
  | none => rfl
  | some s =>
    obtain ⟨e, he, hs⟩ := findState_mem hf
    simp [h e he ▸ hs]

theorem getState_binary {g : Grid} (h : BinaryGrid g) (r c : Nat) :
    getState g r c = 0 ∨ getState g r c = 1 := by
  rw [getState_eq_find]
  cases hf : findState g (r, c) with
  | none => left; rfl
  | some s =>
    obtain ⟨e, he, hs⟩ := findState_mem hf
    simpa [hs] using h e he

theorem binary_ensure {g : Grid} (h : BinaryGrid g) (p : Nat × Nat) :
    BinaryGrid (ensure g p) := by
  unfold ensure
  cases findState g p with
  | some s => exact h
  | none =>
    intro e he
    rcases List.mem_append.mp he with h1 | h2
    · exact h e h1
    · simp only [List.mem_singleton] at h2
      simp [h2]

theorem mem_writeCell {g : Grid} {p : Nat × Nat} {v : Nat} {e : (Nat × Nat) × Nat}
    (he : e ∈ writeCell g p v) : e ∈ g ∨ e.2 = v := by
  induction g with
  | nil => simp [writeCell] at he
  | cons w rest ih =>
    obtain ⟨q, s⟩ := w
    by_cases hpq : p = q
    · simp [writeCell, hpq] at he
      rcases he with h1 | h2
      · right; simp [h1]
      · left; simp [h2]
    · simp [writeCell, hpq] at he
      rcases he with h1 | h2
      · left; simp [h1]
      · rcases ih h2 with h3 | h4
        · left; simp [h3]
        · right; exact h4

theorem binary_writeCell {g : Grid} (h : BinaryGrid g) (p : Nat × Nat) {v : Nat}
    (hv : v = 0 ∨ v = 1) : BinaryGrid (writeCell g p v) := by
  intro e he
  rcases mem_writeCell he with h1 | h2
  · exact h e h1
  · rw [h2]; exact hv

theorem allZero_binary {g : Grid} (h : AllZero g) : BinaryGrid g :=
  fun e he => Or.inl (h e he)

theorem binary_MNOT {g : Grid} (h : BinaryGrid g) (t : Nat × Nat) :
    BinaryGrid (MNOT g t) := by
  unfold MNOT
  apply binary_writeCell (binary_ensure h t)
  split <;> simp

theorem binary_MNOR {g : Grid} (h : BinaryGrid g) (t a b : Nat × Nat) :
    BinaryGrid (MNOR g t a b) := by
  unfold MNOR
  apply binary_writeCell (binary_ensure (binary_ensure (binary_ensure h a) b) t)
  split <;> simp

theorem binary_setState {g : Grid} (h : BinaryGrid g) (r c v : Nat) :
    BinaryGrid (setState g r c v) := by
  unfold setState
  apply binary_writeCell (binary_ensure h (r, c))
  split <;> simp

/-! ## Sequences of simulator operations -/

/-- One call to the simulator's public interface
(`MNOT, MNOR, COM, ISO, JSET, JRES, resetGrid, setState, getState`). -/
inductive SimOp
  | reset (rows cols : Nat)
  | set (r c val : Nat)
  | get (r c : Nat)
  | mnot (t : Nat × Nat)
  | mnor (t a b : Nat × Nat)
  | iso
  | com
  | jset
  | jres
deriving DecidableEq

/-- Effect of one simulator call on the store.  `getState` only performs the
lazy `ensure` of the read coordinate; `ISO`/`COM`/`JSET`/`JRES` are no-ops
in the source. -/
def applyOp (g : Grid) : SimOp → Grid
  | .reset rows cols => resetGrid g rows cols
  | .set r c v => setState g r c v
  | .get r c => ensure g (r, c)
  | .mnot t => MNOT g t
  | .mnor t a b => MNOR g t a b
  | .iso => g
  | .com => g
  | .jset => g
  | .jres => g

/-- Run a sequence of simulator calls from a given store. -/
def applyOps (g : Grid) (ops : List SimOp) : Grid :=
  ops.foldl applyOp g

theorem binary_applyOp {g : Grid} (h : BinaryGrid g) (op : SimOp) :
    BinaryGrid (applyOp g op) := by
  cases op with
  | reset rows cols => exact allZero_binary (allZero_resetGrid g rows cols)
  | set r c v => exact binary_setState h r c v
  | get r c => exact binary_ensure h (r, c)
  | mnot t => exact binary_MNOT h t
  | mnor t a b => exact binary_MNOR h t a b
  | iso => exact h
  | com => exact h
  | jset => exact h
  | jres => exact h

theorem binary_applyOps {g : Grid} (h : BinaryGrid g) (ops : List SimOp) :
    BinaryGrid (applyOps g ops) := by
  induction ops generalizing g with
  | nil => exact h
  | cons op rest ih => exact ih (binary_applyOp h op)

/-! ## Gate catalog and the `runGate` execution protocol -/

/-- One entry of a gate's `instructionSequence`: an op-code string and the
list of coordinate arguments (`args`; instructions such as `{op:'ISO'}`
carry no `args` property, modelled as the empty list). -/
structure Instr where
  op : String
  args : List (Nat × Nat)
deriving DecidableEq

/-- A `GATES` catalog entry.  The `instructionSequence` lambdas in the
source ignore their `input` argument (every sequence is a constant list),
so the field is the list itself.  The `name`, `description` and `compute`
fields are not consulted by `runGate` and are omitted. -/
structure GateDef where
  layoutRows : Nat
  layoutCols : Nat
  instructionSequence : List Instr
deriving DecidableEq

/-- The `GATES` catalog as a lookup (`GATES[name]`); `none` is the JS
`undefined` returned for a name that is not a key. -/
def GATES : String → Option GateDef := fun name =>
  if name = "NOT" then
    some ⟨1, 3, [⟨"ISO", []⟩, ⟨"MNOT", [(0, 2)]⟩]⟩
  else if name = "AND" then
    some ⟨1, 4, [⟨"ISO", []⟩, ⟨"MNOT", [(0, 1)]⟩, ⟨"MNOT", [(0, 2)]⟩,
      ⟨"MNOR", [(0, 3), (0, 1), (0, 2)]⟩]⟩
  else if name = "OR" then
    some ⟨1, 4, [⟨"ISO", []⟩, ⟨"MNOR", [(0, 3), (0, 0), (0, 1)]⟩,
      ⟨"MNOT", [(0, 3)]⟩]⟩
  else if name = "NAND" then
    some ⟨1, 5, [⟨"ISO", []⟩, ⟨"MNOT", [(0, 1)]⟩, ⟨"MNOT", [(0, 2)]⟩,
      ⟨"MNOR", [(0, 3), (0, 1), (0, 2)]⟩, ⟨"MNOT", [(0, 4)]⟩]⟩
  else if name = "XOR" then
    some ⟨2, 4, [⟨"ISO", []⟩, ⟨"MNOR", []⟩, ⟨"MNOT", []⟩, ⟨"COM", []⟩]⟩
  else if name = "XNOR" then
    some ⟨2, 4, [⟨"ISO", []⟩, ⟨"MNOR", []⟩, ⟨"MNOT", []⟩, ⟨"COM", []⟩]⟩
  else none

/-- The `switch (ins.op)` body of `runGate`.  `MNOT`/`MNOR` index into
`ins.args`; too few arguments means `ins.args[i]` is `undefined` and the
callee dereferences it, throwing a `TypeError` (modelled as `none`).
`ISO`/`COM`/`JSET`/`JRES` call no-op functions; an unrecognized op-code
matches no `case` (the switch has no `default`), so the store is returned
unchanged. -/
def execInstr (g : Grid) (i : Instr) : Option Grid :=
  if i.op = "MNOT" then
    match i.args with
    | t :: _ => some (MNOT g t)
    | [] => none
  else if i.op = "MNOR" then
    match i.args with
    | t :: a :: b :: _ => some (MNOR g t a b)
    | _ => none
  else
    some g

/-- The instruction loop of `runGate`, one instruction at a time (a thrown
exception aborts the run). -/
def execInstrs (g : Grid) : List Instr → Option Grid
  | [] => some g
  | i :: rest =>
    match execInstr g i with
    | none => none
    | some g2 => execInstrs g2 rest

/-- `runGate`: look up the selected gate (`GATES[selectedGate]`; an unknown
name gives `undefined`, and `gate.layoutRows` then throws — `none`);
`resetGrid` to the gate's declared dimensions; seed `(0,0)` with
`inputs.A ? 1 : 0` and `(0,1)` with `inputs.B ? 1 : 0` (the `inputs` state
object always has both `A` and `B` keys, so `'B' in inputs` holds);
execute the instruction sequence; finally report
`sim.getState(0,3)` as the output, for every gate (the source comments
this line `// adapt per gate`).  Animation pauses and snapshot updates
have no effect on the store and are omitted. -/
def runGate (g : Grid) (selectedGate : String) (A B : Nat) :
    Option (Grid × Nat) :=
  match GATES selectedGate with
  | none => none
  | some gate =>
    let g0 := resetGrid g gate.layoutRows gate.layoutCols
    let g1 := setState g0 0 0 (if A ≠ 0 then 1 else 0)
    let g2 := setState g1 0 1 (if B ≠ 0 then 1 else 0)
    match execInstrs g2 gate.instructionSequence with
    | none => none
    | some gf => some (gf, getState gf 0 3)

/-! ## Reference truth-function -/

/-- `computeTruth(gate, a, b)`: the truth-table helper of the app.  The
`default` branch of the source returns the placeholder string `'-'`
(a non-numeric value), modelled as `none`. -/
def computeTruth (gate : String) (a b : Nat) : Option Nat :=
  if gate = "NOT" then some (if a ≠ 0 then 0 else 1)
  else if gate = "AND" then some (if a ≠ 0 ∧ b ≠ 0 then 1 else 0)
  else if gate = "OR" then some (if a ≠ 0 ∨ b ≠ 0 then 1 else 0)
  else if gate = "NAND" then some (if a ≠ 0 ∧ b ≠ 0 then 0 else 1)
  else if gate = "XOR" then some (if a ^^^ b ≠ 0 then 1 else 0)
  else if gate = "XNOR" then some (if a ^^^ b ≠ 0 then 0 else 1)
  else none

/-! ## Crossbar electrical read model

Two structurally similar implementations exist in the source: the recompute
effect in the app (fixed 4×4, module constants `RON = 1e3`, `ROFF = 1e6`)
and the `sim` memo in the `CrossbarAdvanced` component (`rows × cols`,
module constants `RON = 2000`, `ROFF = 40000`).  Both are embedded below
with the resistance constants λ-lifted into explicit arguments, so that the
app's hardcoded values instantiate them and claims about the two
implementations under equal constants are statable. -/

/-- A 1T1R crossbar cell: a resistance-state string (the source compares it
to `'RON'`; the values in play are `"RON"`, `"ROFF"` and the filler
`"INTER"`) and a selector flag.  The presentation-only `logic` field is
omitted. -/
structure CrossCell where
  state : String
  selector : Bool
deriving DecidableEq

namespace App

/-- `RON = 1e3` — low resistance state (logic 1), in ohms. -/
def RON : ℚ := 1000

/-- `ROFF = 1e6` — high resistance state (logic 0), in ohms. -/
def ROFF : ℚ := 1000000

/-- The `G` matrix of the crossbar effect:
`if (!cell.selector) G[r][c] = 0; else G[r][c] = 1.0 / (cell.state === 'RON' ? RON : ROFF)`. -/
def G (Ron Roff : ℚ) (crossbar : Nat → Nat → CrossCell) (r c : Nat) : ℚ :=
  if (crossbar r c).selector = false then 0
  else 1 / (if (crossbar r c).state = "RON" then Ron else Roff)

/-- Per-cell current: `Irc = (Vwl - 0) * G[r][c]` with
`Vwl = newDriven[r] ? vDrive : 0`. -/
def currents (Ron Roff : ℚ) (crossbar : Nat → Nat → CrossCell)
    (newDriven : Nat → Bool) (vDrive : ℚ) (r c : Nat) : ℚ :=
  let Vwl := if newDriven r then vDrive else 0
  (Vwl - 0) * G Ron Roff crossbar r c

/-- Per-column (bit-line) total: the loop accumulates
`blTotals[c] += Irc` over all four rows. -/
def blTotals (Ron Roff : ℚ) (crossbar : Nat → Nat → CrossCell)
    (newDriven : Nat → Bool) (vDrive : ℚ) (c : Nat) : ℚ :=
  ((List.range 4).map (fun r => currents Ron Roff crossbar newDriven vDrive r c)).sum

/-- Threshold readout:
`threshold = (vDrive / RON) * 0.35; out = blTotals[0] > threshold ? 1 : 0`. -/
def readout (blTotal0 vDrive : ℚ) : Nat :=
  let threshold := vDrive / RON * (35 / 100)
  if blTotal0 > threshold then 1 else 0

end App

namespace CrossbarAdvanced

/-- `RON = 2000.0` ohms (example constants of the component). -/
def RON : ℚ := 2000

/-- `ROFF = 40000.0` ohms. -/
def ROFF : ℚ := 40000

/-- Conductance build of the `sim` memo:
`if (!cell.selector) { G[r][c] = 0 } else { const R = cell.state === 'RON' ? RON : ROFF; G[r][c] = 1.0 / R }`. -/
def G (Ron Roff : ℚ) (_rows _cols : Nat) (matrix : Nat → Nat → CrossCell)
    (r c : Nat) : ℚ :=
  if (matrix r c).selector = false then 0
  else
    let R := if (matrix r c).state = "RON" then Ron else Roff
    1 / R

/-- Per-cell current of the `sim` memo:
`const Vbl = 0; const Irc = (Vwl - Vbl) * G[r][c]` with
`Vwl = drivenWL[r] ? vDrive : 0`. -/
def I (Ron Roff : ℚ) (rows cols : Nat) (matrix : Nat → Nat → CrossCell)
    (drivenWL : Nat → Bool) (vDrive : ℚ) (r c : Nat) : ℚ :=
  let Vwl := if drivenWL r then vDrive else 0
  let Vbl : ℚ := 0
  (Vwl - Vbl) * G Ron Roff rows cols matrix r c

/-- Bit-line totals: `BL_total[c] += Irc` accumulated over all `rows` rows. -/
def BL_total (Ron Roff : ℚ) (rows cols : Nat) (matrix : Nat → Nat → CrossCell)
    (drivenWL : Nat → Bool) (vDrive : ℚ) (c : Nat) : ℚ :=
  ((List.range rows).map
    (fun r => I Ron Roff rows cols matrix drivenWL vDrive r c)).sum

end CrossbarAdvanced

/-! ## Claim theorems -/

/-- Claim C1: for every gate G in {NOT, AND, OR, NAND, XOR, XNOR} and every
input pair (a,b) in {0,1}², the reference truth-function
`computeTruth(G, a, b)` equals the conventional boolean semantics of G:
NOT(a) = 1−a, AND(a,b) = a·b, OR(a,b) = max(a,b), NAND(a,b) = 1−a·b,
XOR(a,b) = a xor b, XNOR(a,b) = 1−(a xor b). -/
theorem computeTruth_conventional (a b : Nat)
    (ha : a = 0 ∨ a = 1) (hb : b = 0 ∨ b = 1) :
    computeTruth "NOT" a b = some (1 - a) ∧
    computeTruth "AND" a b = some (a * b) ∧
    computeTruth "OR" a b = some (max a b) ∧
    computeTruth "NAND" a b = some (1 - a * b) ∧
    computeTruth "XOR" a b = some (a ^^^ b) ∧
    computeTruth "XNOR" a b = some (1 - (a ^^^ b)) := by
  rcases ha with rfl | rfl <;> rcases hb with rfl | rfl <;> decide

theorem computeTruth_conventional_witness :
    computeTruth "NAND" 1 1 = some 0 ∧ computeTruth "XOR" 0 1 = some 1 :=
  ⟨(computeTruth_conventional 1 1 (Or.inr rfl) (Or.inr rfl)).2.2.2.1,
   (computeTruth_conventional 0 1 (Or.inl rfl) (Or.inr rfl)).2.2.2.2.1⟩

/-- Claim C2, evaluated on the code at the failing input: the `runGate`
execution protocol for gate NOT reports `getState(0,3)` as the final
output.  Cell (0,3) lies outside NOT's declared 1×3 layout and is never
written (NOT's own layout comment and `compute` designate (0,2) as the
output cell; the read carries the source comment `// adapt per gate`), so
the reported output is 0 for A = 0 as well as for A = 1 — the spec requires
output 1 when A = 0. -/
theorem runGate_NOT_reports_zero :
    (runGate [] "NOT" 0 0).map Prod.snd = some 0 ∧
    (runGate [] "NOT" 1 0).map Prod.snd = some 0 := by
  decide

/-- Claim C3: the crossbar readout is 1 iff column 0's total current
strictly exceeds 0.35 × (vDrive / R_low); a total exactly equal to the
threshold yields 0 (exclusive boundary). -/
theorem readout_threshold_exclusive (t v : ℚ) :
    (App.readout t v = 1 ↔ t > 35 / 100 * (v / App.RON)) ∧
    (t = 35 / 100 * (v / App.RON) → App.readout t v = 0) := by
  have hc : 35 / 100 * (v / App.RON) = v / App.RON * (35 / 100) := by ring
  rw [hc]
  simp only [App.readout]
  constructor
  · split_ifs with h
    · exact ⟨fun _ => h, fun _ => rfl⟩
    · exact ⟨fun h01 => absurd h01 (by decide), fun hlt => absurd hlt h⟩
  · intro ht
    split_ifs with h
    · rw [ht] at h
      exact absurd h (lt_irrefl _)
    · rfl

theorem readout_threshold_exclusive_witness :
    App.readout (7 / 20000) 1 = 0 :=
  (readout_threshold_exclusive (7 / 20000) 1).2 (by norm_num [App.RON])

/-- Claim C4: in the app's 4×4 crossbar model, a cell's conductance is 0
when its selector is disabled and otherwise 1/R_low or 1/R_high per its
resistance state; its current is (V_row − 0) × conductance with
V_row = vDrive iff the row is driven; each column total is the sum of that
column's per-cell currents over all rows; in particular driving row 0 at V
with cell (0,0) low-resistive and selected gives current V / R_low there,
and disabling that selector gives current 0 for any drive. -/
theorem crossbar_current_model (cb : Nat → Nat → CrossCell)
    (driven : Nat → Bool) (v : ℚ) (r c : Nat) :
    ((cb r c).selector = false → App.G App.RON App.ROFF cb r c = 0) ∧
    ((cb r c).selector = true → (cb r c).state = "RON" →
      App.G App.RON App.ROFF cb r c = 1 / App.RON) ∧
    ((cb r c).selector = true → (cb r c).state = "ROFF" →
      App.G App.RON App.ROFF cb r c = 1 / App.ROFF) ∧
    App.currents App.RON App.ROFF cb driven v r c =
      (if driven r then v else 0) * App.G App.RON App.ROFF cb r c ∧
    App.blTotals App.RON App.ROFF cb driven v c =
      ((List.range 4).map
        (fun i => App.currents App.RON App.ROFF cb driven v i c)).sum ∧
    ((cb 0 0).state = "RON" → (cb 0 0).selector = true → driven 0 = true →
      App.currents App.RON App.ROFF cb driven v 0 0 = v / App.RON) ∧
    ((cb 0 0).selector = false →
      App.currents App.RON App.ROFF cb driven v 0 0 = 0) := by
  refine ⟨?_, ?_, ?_, ?_, rfl, ?_, ?_⟩
  · intro hs
    simp [App.G, hs]
  · intro hs hr
    simp [App.G, hs, hr]
  · intro hs hr
    simp [App.G, hs, hr]
  · simp [App.currents]
  · intro h1 h2 h3
    simp [App.currents, App.G, h1, h2, h3, div_eq_mul_inv]
  · intro h
    simp [App.currents, App.G, h]

theorem crossbar_current_model_witness :
    App.currents App.RON App.ROFF
      (fun r c => if r = 0 ∧ c = 0 then ⟨"RON", true⟩ else ⟨"ROFF", true⟩)
      (fun r => r == 0) 2 0 0 = 2 / App.RON ∧
    App.currents App.RON App.ROFF
      (fun _ _ => ⟨"RON", false⟩) (fun r => r == 0) 2 0 0 = 0 :=
  ⟨(crossbar_current_model
      (fun r c => if r = 0 ∧ c = 0 then ⟨"RON", true⟩ else ⟨"ROFF", true⟩)
      (fun r => r == 0) 2 0 0).2.2.2.2.2.1 (by decide) (by decide) (by decide),
   (crossbar_current_model
      (fun _ _ => ⟨"RON", false⟩)
      (fun r => r == 0) 2 0 0).2.2.2.2.2.2 (by decide)⟩

/-- Claim C5: after `MNOR(target, a, b)`, the state of the target is the
logical complement of (state(a) OR state(b)) — 1 when both operand states
are 0, and 0 when either is 1 (the full 4-case NOR truth table). -/
theorem MNOR_nor_truth (g : Grid) (t a b : Nat × Nat) :
    getState (MNOR g t a b) t.1 t.2 =
      if getState g a.1 a.2 ≠ 0 ∨ getState g b.1 b.2 ≠ 0 then 0 else 1 :=
  getState_MNOR_target g t a b

/-- Claim C6: after `resetGrid(rows, cols)`, `getState(r, c)` returns 0 for
every in-bounds coordinate, regardless of the prior contents of the grid. -/
theorem resetGrid_reads_zero (g : Grid) (rows cols r c : Nat)
    (hr : r < rows) (hc : c < cols) :
    getState (resetGrid g rows cols) r c = 0 :=
  getState_allZero (allZero_resetGrid g rows cols) r c

theorem resetGrid_reads_zero_witness :
    getState (resetGrid [((0, 0), 1)] 2 3) 1 2 = 0 :=
  resetGrid_reads_zero [((0, 0), 1)] 2 3 1 2 (by decide) (by decide)

/-- Claim C7 counterexample: selecting a gate name that is not a key of the
catalog does not fail closed — `GATES[selectedGate]` is `undefined` and
`gate.layoutRows` throws a `TypeError` (modelled as `none`), so an
exception is raised, refuting the claim as stated. -/
theorem runGate_unknown_gate_throws : runGate [] "FOO" 0 0 = none := by
  decide

/-- Claim C7 as amended: executing an instruction whose op-code is not one
of the recognized codes fails closed (the store is returned unchanged and
nothing is thrown), while selecting a gate name not present in the catalog
makes `runGate` throw before any cell is mutated. -/
theorem unknown_op_failclosed_unknown_gate_throws
    (g : Grid) (i : Instr) (name : String) (A B : Nat)
    (hop : i.op ≠ "MNOT" ∧ i.op ≠ "MNOR" ∧ i.op ≠ "ISO" ∧ i.op ≠ "COM" ∧
      i.op ≠ "JSET" ∧ i.op ≠ "JRES")
    (hname : GATES name = none) :
    execInstr g i = some g ∧ runGate g name A B = none := by
  constructor
  · unfold execInstr
    rw [if_neg hop.1, if_neg hop.2.1]
  · unfold runGate
    rw [hname]

theorem unknown_op_failclosed_witness :
    execInstr [] ⟨"FROB", []⟩ = some [] ∧ runGate [] "BAR" 0 0 = none :=
  unknown_op_failclosed_unknown_gate_throws [] ⟨"FROB", []⟩ "BAR" 0 0
    (by decide) (by decide)

/-- Claim C8: binary-state invariant — after any sequence of simulator
calls (`resetGrid`, `setState`, `getState`, `MNOT`, `MNOR` and the no-op
control instructions) starting from the freshly created simulator, every
cell's observable state is exactly 0 or 1. -/
theorem simulator_binary_invariant (ops : List SimOp) (r c : Nat) :
    getState (applyOps [] ops) r c = 0 ∨ getState (applyOps [] ops) r c = 1 :=
  getState_binary
    (binary_applyOps (fun _ he => absurd he (List.not_mem_nil _)) ops) r c

/-- Claim C9: frame property of `MNOR` — every coordinate other than the
target keeps its observable state, and since both operand states are read
before the target is written, the written value is the NOR of the operands'
pre-call states even when the target coincides with an operand. -/
theorem MNOR_frame (g : Grid) (t a b : Nat × Nat) (r c : Nat) :
    ((r, c) ≠ t → getState (MNOR g t a b) r c = getState g r c) ∧
    ((t = a ∨ t = b) → getState (MNOR g t a b) t.1 t.2 =
      if getState g a.1 a.2 ≠ 0 ∨ getState g b.1 b.2 ≠ 0 then 0 else 1) :=
  ⟨fun h => getState_MNOR_other g t a b r c h,
   fun _ => getState_MNOR_target g t a b⟩

theorem MNOR_frame_witness :
    getState (MNOR [] (0, 0) (0, 0) (0, 1)) 0 1 = getState ([] : Grid) 0 1 ∧
    getState (MNOR [] (0, 0) (0, 0) (0, 1)) 0 0 = 1 :=
  ⟨(MNOR_frame [] (0, 0) (0, 0) (0, 1) 0 1).1 (by decide),
   ((MNOR_frame [] (0, 0) (0, 0) (0, 1) 0 0).2 (Or.inl rfl)).trans (by decide)⟩

/-- Claim C10: the two crossbar current-model implementations — the app's
recompute effect and CrossbarAdvanced's sim memo — are extensionally equal:
for the same resistance constants, cell states, selector flags, driven-row
vector and drive voltage (on the 4×4 instance the app uses) they produce
identical per-cell conductances, per-cell currents and per-column totals. -/
theorem crossbar_models_agree (Ron Roff : ℚ) (m : Nat → Nat → CrossCell)
    (driven : Nat → Bool) (v : ℚ) (r c : Nat) :
    App.G Ron Roff m r c = CrossbarAdvanced.G Ron Roff 4 4 m r c ∧
    App.currents Ron Roff m driven v r c =
      CrossbarAdvanced.I Ron Roff 4 4 m driven v r c ∧
    App.blTotals Ron Roff m driven v c =
      CrossbarAdvanced.BL_total Ron Roff 4 4 m driven v c :=
  ⟨rfl, rfl, rfl⟩

end Memristor
